import Mathlib

/-!
Verification of the JesnZIP tray agent clipboard/upload pipeline
(`JesnZIP-tray.py`).

This file gives a shallow embedding of the pure decision logic of the
program: Python dictionaries become association lists, Python truthiness
is modelled explicitly, fallible OS and network collaborators
(filesystem metadata, `requests.post`, PNG encoding, SHA-256 hashing)
become explicit environment parameters, and side effects (thread spawns,
clipboard writes, notifications, temp-file creation/unlink, sleeps)
become explicit event lists, preserving the order in which the source
performs them.
-/

/-! ### Python-semantics helpers -/

/-- Python truthiness of a value that is either `None` or a `str`:
`None` and the empty string are falsy, every other string is truthy. -/
def pyTruthy : Option String → Bool
  | none => false
  | some s => s != ""

/-- Python `a or b` on `None`-or-`str` values: returns `a` when `a` is
truthy, otherwise returns `b` as-is (even when `b` is falsy). -/
def pyOr (a b : Option String) : Option String :=
  if pyTruthy a then a else b

/-- Python `str.lower()` restricted to the ASCII characters that occur in
file extensions. -/
def pyLower (s : String) : String :=
  String.mk (s.data.map Char.toLower)

/-- Index of the last occurrence of `c` in the character list
(`str.rfind`), `-1` when absent. -/
def lastIdx (c : Char) : List Char → Int
  | [] => -1
  | a :: rest =>
    let r := lastIdx c rest
    if r ≥ 0 then r + 1 else if a = c then 0 else -1

/-- The extension component of `os.path.splitext(p)` (Windows `ntpath`
rules: separators are backslash and slash, the extension separator is a
dot, and a basename consisting only of leading dots has no extension,
so `.bashrc` has extension `""` while `photo.png` has `".png"`). -/
def splitextExtension (p : String) : String :=
  let cs := p.data
  let sepIndex := max (lastIdx '\\' cs) (lastIdx '/' cs)
  let dotIndex := lastIdx '.' cs
  if sepIndex < dotIndex then
    let base := (cs.drop (sepIndex + 1).toNat).take (dotIndex - (sepIndex + 1)).toNat
    if base.any (fun c => c ≠ '.') then String.mk (cs.drop dotIndex.toNat) else ""
  else ""

/-! ### Settings (`tray_settings.json` dictionary) -/

/-- The mutable settings dictionary. Keys may be absent, so each field is
an `Option`; `settings.get(key, default)` is modelled by `getD`.
`poll_interval` is a (float) number of seconds, modelled as a rational. -/
structure Settings where
  auto_upload : Option Bool
  poll_interval : Option Rat
deriving DecidableEq

/-- `settings.get("auto_upload", True)` as used at lines 219 and 231. -/
def pyGetAuto (st : Settings) : Bool :=
  st.auto_upload.getD true

/-- `float(settings.get("poll_interval", 1.0))` as read at line 201. -/
def pyGetPoll (st : Settings) : Rat :=
  st.poll_interval.getD 1

/-! ### The filesystem collaborator

`os.path.exists`, `os.path.abspath`, `os.path.getsize` and
`os.path.getmtime` are OS queries; they are modelled as an explicit
environment of pure functions fixed for the duration of a tick. -/

structure FS where
  pathExists : String → Bool
  absPath : String → String
  getSize : String → Int
  getMTime : String → Int

/-- The identity string built at line 218:
`f"file::{os.path.abspath(p)}::{os.path.getsize(p)}::{os.path.getmtime(p)}"`. -/
def mkFileId (fs : FS) (p : String) : String :=
  "file::" ++ fs.absPath p ++ "::" ++ toString (fs.getSize p) ++ "::" ++ toString (fs.getMTime p)

/-- The image-extension allow-list of line 217. -/
def imageExts : List String := [".png", ".jpg", ".jpeg", ".bmp", ".gif"]

/-- The video-extension allow-list of line 217. -/
def videoExts : List String := [".mp4", ".mov", ".mkv", ".avi"]

/-- A path qualifies for dispatch when it exists on disk and its
lowercased extension is in one of the two allow-lists (lines 214-217). -/
def qualifies (fs : FS) (p : String) : Bool :=
  fs.pathExists p &&
    (imageExts.contains (pyLower (splitextExtension p)) ||
     videoExts.contains (pyLower (splitextExtension p)))

/-! ### `image_bytes_hash` (lines 147-157)

The function creates a named temporary file with `delete=False`, saves
the image into it (`img.save` may raise), hashes it with `file_hash`
(which catches all of its own exceptions and returns `None` on failure),
unlinks the temporary file, and returns the hash; any exception is
caught and turns the result into `None`. The temp-file lifecycle is
recorded as events. -/

inductive TmpEvent where
  | created
  | unlinked
deriving DecidableEq

/-- The `try:` body of `image_bytes_hash`. `saveRaises` says whether
`img.save`/`tf.flush` raises; `hashResult` is what `file_hash` returns
on the encoded bytes (`none` models its internally-caught I/O failure).
Returns the raising body outcome together with the temp-file events in
program order: the file is created on entry, and `os.unlink` runs only
after the `with` block completes without an exception. -/
def image_bytes_hash_body (saveRaises : Bool) (hashResult : Option String) :
    Except String (Option String) × List TmpEvent :=
  if saveRaises then
    (Except.error "img.save raised", [TmpEvent.created])
  else
    (Except.ok hashResult, [TmpEvent.created, TmpEvent.unlinked])

/-- `image_bytes_hash`: the body wrapped in the `except` clause that
logs and returns `None`. -/
def image_bytes_hash (saveRaises : Bool) (hashResult : Option String) :
    Option String × List TmpEvent :=
  match image_bytes_hash_body saveRaises hashResult with
  | (Except.ok h, ev) => (h, ev)
  | (Except.error _, ev) => (none, ev)

/-! ### `upload_path` (lines 160-183) -/

/-- A parsed JSON object body: an association list from keys to
`None`-or-`str` values. (The link-bearing keys carry strings or null.) -/
def JsonObj : Type := List (String × Option String)

instance : DecidableEq JsonObj := by
  unfold JsonObj
  infer_instance

/-- Python `data.get(k)`: `None` both when the key is absent and when it
is present with value null. -/
def pyGet (data : JsonObj) (k : String) : Option String :=
  Option.join (data.lookup k)

/-- `data.get("url") or data.get("share_url") or data.get("file_url")`
(line 175), with Python left-to-right truthiness chaining. -/
def extractUrl (data : JsonObj) : Option String :=
  pyOr (pyOr (pyGet data "url") (pyGet data "share_url")) (pyGet data "file_url")

/-- An HTTP response as `upload_path` observes it: status code, raw body
text, and the result of `resp.json()` (`none` when parsing raises, in
which case `jsonErrText` is the `str(e)` of that exception). -/
structure HttpResponse where
  status_code : Int
  text : String
  jsonBody : Option JsonObj
  jsonErrText : String
deriving DecidableEq

/-- What `requests.post` does: either returns a response or raises a
transport exception (network error, timeout) with message `str(e)`. -/
inductive SendResult where
  | resp (r : HttpResponse)
  | raised (msg : String)
deriving DecidableEq

/-- The environment of one `upload_path` call: whether `open(path,"rb")`
succeeds (with the exception text when it does not) and what the POST
does. -/
structure UploadEnv where
  openOk : Bool
  openErrText : String
  send : SendResult
deriving DecidableEq

/-- The triple returned by `upload_path`: `(True, url, data)` on a
2xx-parsed response, `(False, None, message)` otherwise. -/
inductive UploadResult where
  | ok (url : Option String) (data : JsonObj)
  | fail (msg : String)
deriving DecidableEq

/-- The `try:` body of `upload_path` (lines 161-180): opening the file,
posting, and the status dispatch. Raising paths are `Except.error`; note
that a non-2xx status is NOT an exception: the body returns the failure
triple normally (line 180). -/
def upload_body (env : UploadEnv) : Except String UploadResult :=
  if env.openOk then
    match env.send with
    | SendResult.raised m => Except.error m
    | SendResult.resp r =>
      if r.status_code = 200 ∨ r.status_code = 201 then
        match r.jsonBody with
        | none => Except.error r.jsonErrText
        | some data => Except.ok (UploadResult.ok (extractUrl data) data)
      else
        Except.ok (UploadResult.fail r.text)
  else
    Except.error env.openErrText

/-- `upload_path`: the body wrapped in the `except Exception` clause of
lines 181-183, which converts every raised exception into the failure
triple `(False, None, str(e))`. -/
def upload_path (env : UploadEnv) : UploadResult :=
  match upload_body env with
  | Except.ok r => r
  | Except.error e => UploadResult.fail e

/-- The specification-level outcome type: success with an optional share
link, or failure with a diagnostic message. -/
inductive UploadOutcome where
  | success (link : Option String)
  | failure (msg : String)
deriving DecidableEq

/-- Collapse a falsy url value (absent, null or empty) to "no link",
matching how every downstream consumer of the triple tests the url
(`if ok and url`). -/
def normLink (u : Option String) : Option String :=
  if pyTruthy u then u else none

/-- Abstraction of the returned triple to the specification outcome. -/
def outcomeOf (r : UploadResult) : UploadOutcome :=
  match r with
  | UploadResult.ok u _ => UploadOutcome.success (normLink u)
  | UploadResult.fail m => UploadOutcome.failure m

/-- The first truthy (present, non-null, non-empty) value among the keys
`url`, `share_url`, `file_url`, in that order; `none` when no key holds
a truthy value. Defined independently of `extractUrl` by searching the
key list. -/
def firstTruthyLink (data : JsonObj) : Option String :=
  Option.join ((["url", "share_url", "file_url"].map (pyGet data)).find? pyTruthy)

/-- Modelled from the spec claim wording: the value of the first
syntactically PRESENT key among `url`, `share_url`, `file_url`,
regardless of whether that value is null or empty. Used only to compare
the claim text with the code. -/
def specFirstPresentLink (data : JsonObj) : Option String :=
  match data.lookup "url" with
  | some v => v
  | none =>
    match data.lookup "share_url" with
    | some v => v
    | none => Option.join (data.lookup "file_url")

/-! ### `handle_new_file` (lines 186-196) -/

/-- Observable side effects of the outcome sink: a clipboard write or a
notification. -/
inductive Effect where
  | clip (text : String)
  | notif (title message : String)
deriving DecidableEq

/-- `handle_new_file`: run the upload, then either copy the link and
notify, notify "no link", or notify failure. The branch test is Python
`if ok and url` / `elif ok and not url`, i.e. truthiness of the url. -/
def handle_new_file (env : UploadEnv) : List Effect :=
  match upload_path env with
  | UploadResult.ok url _ =>
    if pyTruthy url then
      [Effect.clip (url.getD ""),
       Effect.notif "JesnZIP" "Upload completed — link copied to clipboard"]
    else
      [Effect.notif "JesnZIP" "Upload completed (no link returned)"]
  | UploadResult.fail m =>
    [Effect.notif "JesnZIP: Upload failed" m]

/-! ### The dispatch loop (`monitor_clipboard_loop`, lines 199-243) -/

/-- One clipboard snapshot as `ImageGrab.grabclipboard()` returns it:
`None`, a list of file paths, or an image object. An image is modelled
by the behaviour of its encoding (`saveRaises`, `hashResult` feed
`image_bytes_hash`) and by the fresh temp path the dispatch branch
writes it to. -/
inductive Grabbed where
  | clipEmpty
  | files (paths : List String)
  | image (saveRaises : Bool) (hashResult : Option String) (tempPath : String)
deriving DecidableEq

/-- Observable events of one tick of the loop, in program order:
`record i` is the assignment `last_id = identifier` and `spawn p` is
`threading.Thread(target=handle_new_file, args=(p,)).start()`. -/
inductive TickEvent where
  | record (id : String)
  | spawn (path : String)
deriving DecidableEq

def isSpawn : TickEvent → Bool
  | TickEvent.spawn _ => true
  | _ => false

def spawnCount (evs : List TickEvent) : Nat :=
  (evs.filter isSpawn).length

/-- The `for p in grabbed:` loop of lines 213-222. A non-existing path
is skipped (`continue`), an existing path with a non-allow-listed
extension falls through to the next path, and the first existing
allow-listed path is processed (dedup test, possible record+spawn) and
then the loop `break`s unconditionally. -/
def scanFiles (fs : FS) (st : Settings) (last : Option String) :
    List String → Option String × List TickEvent
  | [] => (last, [])
  | p :: rest =>
    if fs.pathExists p then
      if imageExts.contains (pyLower (splitextExtension p)) ||
         videoExts.contains (pyLower (splitextExtension p)) then
        let identifier := mkFileId fs p
        if some identifier ≠ last ∧ pyGetAuto st = true then
          (some identifier, [TickEvent.record identifier, TickEvent.spawn p])
        else
          (last, [])
      else
        scanFiles fs st last rest
    else
      scanFiles fs st last rest

/-- One tick of the loop body (lines 204-239), minus the sleep:
given the current settings dictionary, the dedup state `last` and the
grabbed snapshot, return the new dedup state and the emitted events.
In the image branch the dedup test is Python
`if img_h and img_h != last_id and settings.get("auto_upload", True)`;
the accepted hash is recorded into `last_id` at line 232 before the
thread is spawned at line 237. -/
def tick (fs : FS) (st : Settings) (last : Option String) :
    Grabbed → Option String × List TickEvent
  | Grabbed.clipEmpty => (last, [])
  | Grabbed.files ps => scanFiles fs st last ps
  | Grabbed.image saveRaises hashResult tempPath =>
    match (image_bytes_hash saveRaises hashResult).1 with
    | none => (last, [])
    | some h =>
      if h ≠ "" ∧ some h ≠ last ∧ pyGetAuto st = true then
        (some h, [TickEvent.record h, TickEvent.spawn tempPath])
      else
        (last, [])

/-- The identity a snapshot presents on a tick (`ContentIdentifier`):
for a file list, the identity of the first qualifying path; for an
image, the truthy content hash; nothing otherwise. -/
def identifyTick (fs : FS) : Grabbed → Option String
  | Grabbed.clipEmpty => none
  | Grabbed.files ps => (ps.find? (fun p => qualifies fs p)).map (fun p => mkFileId fs p)
  | Grabbed.image saveRaises hashResult _ =>
    match (image_bytes_hash saveRaises hashResult).1 with
    | none => none
    | some h => if h ≠ "" then some h else none

/-- The local path an accepted dispatch would hand to `handle_new_file`. -/
def dispatchTarget (fs : FS) : Grabbed → Option String
  | Grabbed.clipEmpty => none
  | Grabbed.files ps => ps.find? (fun p => qualifies fs p)
  | Grabbed.image _ _ tempPath => some tempPath

/-- A run of successive ticks: each tick sees the settings dictionary as
it stands at that tick (the loop re-reads the global `settings` object
inside the body) and threads the dedup state through. -/
def runTicks (fs : FS) : Option String → List (Settings × Grabbed) →
    Option String × List TickEvent
  | last, [] => (last, [])
  | last, (st, g) :: rest =>
    let t := tick fs st last g
    let r := runTicks fs t.1 rest
    (r.1, t.2 ++ r.2)

/-- The loop proper with its sleeps. `poll` is the value captured at
line 201 before the `while True:`; every branch of the body ends in
`time.sleep(poll)`. Returns final dedup state, events, and the sleep
durations in order. -/
def monitorGo (fs : FS) (poll : Rat) :
    Option String → List (Settings × Grabbed) →
    Option String × List TickEvent × List Rat
  | last, [] => (last, [], [])
  | last, (st, g) :: rest =>
    let t := tick fs st last g
    let r := monitorGo fs poll t.1 rest
    (r.1, t.2 ++ r.2.1, poll :: r.2.2)

/-- `monitor_clipboard_loop` over a finite schedule of ticks: `last_id`
starts as `None` (line 200) and `poll` is read ONCE from the settings
dictionary as it stands when the loop starts (line 201), before the
first tick. -/
def monitor_clipboard_loop (fs : FS) (s0 : Settings)
    (ticks : List (Settings × Grabbed)) :
    Option String × List TickEvent × List Rat :=
  monitorGo fs (pyGetPoll s0) none ticks

/-! ### Concrete fixtures used by witnesses and counterexamples -/

/-- A filesystem with no files, for image-only scenarios. -/
def fs0 : FS :=
  { pathExists := fun _ => false
    absPath := fun p => p
    getSize := fun _ => 0
    getMTime := fun _ => 0 }

/-- Settings with auto-upload on and a 1-second poll interval. -/
def stOn : Settings := { auto_upload := some true, poll_interval := some 1 }

/-- Settings with auto-upload off. -/
def stOff : Settings := { auto_upload := some false, poll_interval := some 1 }

/-- Settings with a 5-second poll interval, for the hot-reload scenario. -/
def stPoll5 : Settings := { auto_upload := some true, poll_interval := some 5 }

/-- An image snapshot whose encode succeeds and hashes to `"h"`. -/
def gImg : Grabbed := Grabbed.image false (some "h") "/tmp/clip.png"

/-- Response body with a present-but-empty `url` and a truthy
`share_url`: the input separating key presence from truthiness. -/
def dataEmptyUrl : JsonObj := [("url", some ""), ("share_url", some "https://b")]

/-- A 200 response carrying `dataEmptyUrl`. -/
def envEmptyUrl : UploadEnv :=
  { openOk := true
    openErrText := ""
    send := SendResult.resp
      { status_code := 200
        text := "ok"
        jsonBody := some dataEmptyUrl
        jsonErrText := "" } }

/-- Response body with a single truthy `url` key. -/
def dataPlainUrl : JsonObj := [("url", some "https://s.jesn.zip/x")]

/-- A 200 response carrying `dataPlainUrl`. -/
def envPlainUrl : UploadEnv :=
  { openOk := true
    openErrText := ""
    send := SendResult.resp
      { status_code := 200
        text := "ok"
        jsonBody := some dataPlainUrl
        jsonErrText := "" } }

/-- An upload whose local file cannot be opened. -/
def envOpenFail : UploadEnv :=
  { openOk := false
    openErrText := "cannot read source"
    send := SendResult.raised "unused" }

/-- An upload answered with HTTP 500 and body `"server error"`. -/
def env500 : UploadEnv :=
  { openOk := true
    openErrText := ""
    send := SendResult.resp
      { status_code := 500
        text := "server error"
        jsonBody := none
        jsonErrText := "" } }

/-- A filesystem on which only `/tmp/photo.png` exists. -/
def fsPhoto : FS :=
  { pathExists := fun p => p == "/tmp/photo.png"
    absPath := fun p => p
    getSize := fun _ => 10
    getMTime := fun _ => 0 }

/-- The file-list snapshot of the specification example. -/
def listPhoto : List String := ["/tmp/notes.txt", "/tmp/photo.png"]

/-- A filesystem on which two distinct png files exist. -/
def fsTwoPng : FS :=
  { pathExists := fun p => p == "/a.png" || p == "/b.png"
    absPath := fun p => p
    getSize := fun p => if p == "/a.png" then 1 else 2
    getMTime := fun _ => 0 }

/-! ### Structural lemmas about the tick -/

/-- The file-scan loop (`continue`/`break` recursion) is the dedup test
applied to the first path satisfying `qualifies`, when one exists. -/
theorem scanFiles_eq (fs : FS) (st : Settings) (last : Option String)
    (ps : List String) :
    scanFiles fs st last ps =
      match ps.find? (fun p => qualifies fs p) with
      | none => (last, [])
      | some p =>
        if some (mkFileId fs p) ≠ last ∧ pyGetAuto st = true then
          (some (mkFileId fs p),
           [TickEvent.record (mkFileId fs p), TickEvent.spawn p])
        else (last, []) := by
  induction ps with
  | nil => simp [scanFiles]
  | cons p rest ih =>
    by_cases hex : fs.pathExists p = true
    · by_cases hal : pyLower (splitextExtension p) ∈ imageExts ∨
          pyLower (splitextExtension p) ∈ videoExts
      · have hq : qualifies fs p = true := by simp [qualifies, hex, hal]
        rw [List.find?_cons_of_pos _ (by simpa using hq)]
        rcases hal with h1 | h1 <;> simp [scanFiles, hex, h1]
      · have hq : ¬ qualifies fs p = true := by simp [qualifies, hex, hal]
        rw [List.find?_cons_of_neg _ (by simpa using hq)]
        simpa [scanFiles, hex, hal] using ih
    · have hq : ¬ qualifies fs p = true := by simp [qualifies, hex]
      rw [List.find?_cons_of_neg _ (by simpa using hq)]
      simpa [scanFiles, hex] using ih

/-- One tick is fully characterised by the identity the snapshot
presents: none means no state change and no events; an identity is
dispatched (recorded, then spawned) exactly when it differs from the
last dispatched identity and auto-upload is on. -/
theorem tick_eq (fs : FS) (st : Settings) (last : Option String) (g : Grabbed) :
    tick fs st last g =
      match identifyTick fs g with
      | none => (last, [])
      | some i =>
        if some i ≠ last ∧ pyGetAuto st = true then
          (some i, [TickEvent.record i,
                    TickEvent.spawn ((dispatchTarget fs g).getD "")])
        else (last, []) := by
  cases g with
  | clipEmpty => simp [tick, identifyTick]
  | files ps =>
    simp only [tick, identifyTick, dispatchTarget]
    rw [scanFiles_eq]
    cases h : ps.find? (fun p => qualifies fs p) with
    | none => simp
    | some p => simp
  | image sr hr tp =>
    cases h : (image_bytes_hash sr hr).1 with
    | none => simp [tick, identifyTick, h]
    | some s =>
      by_cases hs : s = ""
      · subst hs; simp [tick, identifyTick, h]
      · simp [tick, identifyTick, dispatchTarget, h, hs]

theorem tick_of_identify_some (fs : FS) (st : Settings) (last : Option String)
    (g : Grabbed) (i : String) (h : identifyTick fs g = some i) :
    tick fs st last g =
      if some i ≠ last ∧ pyGetAuto st = true then
        (some i, [TickEvent.record i,
                  TickEvent.spawn ((dispatchTarget fs g).getD "")])
      else (last, []) := by
  rw [tick_eq, h]

theorem tick_of_identify_none (fs : FS) (st : Settings) (last : Option String)
    (g : Grabbed) (h : identifyTick fs g = none) :
    tick fs st last g = (last, []) := by
  rw [tick_eq, h]

/-- A run of ticks all presenting identity `i` starting from dedup state
`some i` does nothing at all. -/
theorem runTicks_suppressed (fs : FS) (i : String)
    (ticks : List (Settings × Grabbed))
    (h : ∀ t ∈ ticks, identifyTick fs t.2 = some i) :
    runTicks fs (some i) ticks = (some i, []) := by
  induction ticks with
  | nil => simp [runTicks]
  | cons t rest ih =>
    obtain ⟨st, g⟩ := t
    have ht : identifyTick fs g = some i := h (st, g) (by simp)
    have htick : tick fs st (some i) g = (some i, []) := by
      rw [tick_of_identify_some fs st (some i) g i ht]
      simp
    have hrest := ih (fun t htm => h t (List.mem_cons_of_mem _ htm))
    simp [runTicks, htick, hrest]

/-- Every tick of the loop sleeps the same captured `poll` duration. -/
theorem monitorGo_sleeps (fs : FS) (poll : Rat) :
    ∀ (ticks : List (Settings × Grabbed)) (last : Option String),
      (monitorGo fs poll last ticks).2.2 = List.replicate ticks.length poll := by
  intro ticks
  induction ticks with
  | nil => intro last; simp [monitorGo]
  | cons t rest ih =>
    intro last
    obtain ⟨st, g⟩ := t
    simp [monitorGo, ih, List.replicate_succ]

/-- Normalising the Python or-chain by truthiness gives the first truthy
value among the three link keys. -/
theorem normLink_extractUrl (data : JsonObj) :
    normLink (extractUrl data) = firstTruthyLink data := by
  unfold normLink extractUrl firstTruthyLink pyOr
  cases ha : pyTruthy (pyGet data "url") <;>
  cases hb : pyTruthy (pyGet data "share_url") <;>
  cases hc : pyTruthy (pyGet data "file_url") <;>
    simp [List.find?, ha, hb, hc, Option.join]

/-! ### Claim theorems -/

/-- Claim C1: for every sequence of poll ticks presenting the same
non-none content identity repeatedly with auto-upload enabled, exactly
one dispatch (upload job spawn) occurs: the first such tick records and
spawns, and every subsequent tick with the same identity is rejected by
the dedup comparison against the last dispatched identity. -/
theorem monitor_dedup_exactly_one_dispatch (fs : FS) (i : String)
    (last0 : Option String) (st : Settings) (g : Grabbed)
    (rest : List (Settings × Grabbed))
    (hfresh : last0 ≠ some i)
    (hhead : identifyTick fs g = some i)
    (hauto : pyGetAuto st = true)
    (hrest : ∀ t ∈ rest, identifyTick fs t.2 = some i) :
    ∃ p, (runTicks fs last0 ((st, g) :: rest)).2
        = [TickEvent.record i, TickEvent.spawn p]
      ∧ spawnCount (runTicks fs last0 ((st, g) :: rest)).2 = 1
      ∧ (runTicks fs last0 ((st, g) :: rest)).1 = some i := by
  have hne : some i ≠ last0 := fun h => hfresh h.symm
  have htick : tick fs st last0 g =
      (some i, [TickEvent.record i,
                TickEvent.spawn ((dispatchTarget fs g).getD "")]) := by
    rw [tick_of_identify_some fs st last0 g i hhead]
    rw [if_pos ⟨hne, hauto⟩]
  refine ⟨(dispatchTarget fs g).getD "", ?_, ?_, ?_⟩ <;>
    simp [runTicks, htick, runTicks_suppressed fs i rest hrest,
      spawnCount, isSpawn, List.filter]

/-- Claim C1 witness: the same successfully hashed image presented on
three consecutive ticks with auto-upload on yields exactly one spawn. -/
theorem monitor_dedup_exactly_one_dispatch_witness :
    ∃ p, (runTicks fs0 none [(stOn, gImg), (stOn, gImg), (stOn, gImg)]).2
        = [TickEvent.record "h", TickEvent.spawn p]
      ∧ spawnCount (runTicks fs0 none [(stOn, gImg), (stOn, gImg), (stOn, gImg)]).2 = 1
      ∧ (runTicks fs0 none [(stOn, gImg), (stOn, gImg), (stOn, gImg)]).1 = some "h" :=
  monitor_dedup_exactly_one_dispatch fs0 "h" none stOn gImg
    [(stOn, gImg), (stOn, gImg)] (by decide) (by decide) (by decide) (by decide)

/-- Claim C2: on every accepted dispatch, in either branch, the dedup
state is overwritten with the accepted identity before the upload thread
is spawned (the tick emits exactly `record i` followed by `spawn p` and
its post-state is already `some i`), so any later tick presenting that
same identity emits nothing, regardless of the upload still being in
flight. -/
theorem dispatch_record_precedes_spawn (fs : FS) (st : Settings)
    (last : Option String) (g : Grabbed) (p : String)
    (hsp : TickEvent.spawn p ∈ (tick fs st last g).2) :
    ∃ i, (tick fs st last g).2 = [TickEvent.record i, TickEvent.spawn p]
      ∧ (tick fs st last g).1 = some i
      ∧ identifyTick fs g = some i
      ∧ ∀ st2 g2, identifyTick fs g2 = some i →
          (tick fs st2 (tick fs st last g).1 g2).2 = [] := by
  cases hid : identifyTick fs g with
  | none =>
    rw [tick_of_identify_none fs st last g hid] at hsp
    simp at hsp
  | some i =>
    by_cases hc : some i ≠ last ∧ pyGetAuto st = true
    · have htick : tick fs st last g =
          (some i, [TickEvent.record i,
                    TickEvent.spawn ((dispatchTarget fs g).getD "")]) := by
        rw [tick_of_identify_some fs st last g i hid, if_pos hc]
      rw [htick] at hsp
      simp at hsp
      refine ⟨i, ?_, ?_, rfl, ?_⟩
      · rw [htick, hsp]
      · rw [htick]
      · intro st2 g2 hg2
        rw [htick]
        rw [tick_of_identify_some fs st2 (some i) g2 i hg2]
        rw [if_neg (fun hcc => hcc.1 rfl)]
    · have htick : tick fs st last g = (last, []) := by
        rw [tick_of_identify_some fs st last g i hid, if_neg hc]
      rw [htick] at hsp
      simp at hsp

/-- Claim C2 witness: a fresh image tick records its hash and spawns,
and the next tick with the same hash emits nothing. -/
theorem dispatch_record_precedes_spawn_witness :
    ∃ i, (tick fs0 stOn none gImg).2
        = [TickEvent.record i, TickEvent.spawn "/tmp/clip.png"]
      ∧ (tick fs0 stOn none gImg).1 = some i
      ∧ identifyTick fs0 gImg = some i
      ∧ ∀ st2 g2, identifyTick fs0 g2 = some i →
          (tick fs0 st2 (tick fs0 stOn none gImg).1 g2).2 = [] :=
  dispatch_record_precedes_spawn fs0 stOn none gImg "/tmp/clip.png" (by decide)

/-- Claim C6: when the auto-upload setting is false at a tick, that tick
dispatches nothing and leaves the dedup state untouched, whatever the
clipboard holds and however its identity compares to the last dispatched
one. -/
theorem no_dispatch_when_auto_upload_off (fs : FS) (st : Settings)
    (last : Option String) (g : Grabbed)
    (h : pyGetAuto st = false) :
    tick fs st last g = (last, []) := by
  rw [tick_eq]
  cases identifyTick fs g with
  | none => rfl
  | some i =>
    have hc : ¬(some i ≠ last ∧ pyGetAuto st = true) := by
      intro hc
      rw [h] at hc
      exact Bool.false_ne_true hc.2
    simp [hc]

/-- Claim C6 witness: with auto-upload off, a fresh image tick emits
nothing. -/
theorem no_dispatch_when_auto_upload_off_witness :
    tick fs0 stOff none gImg = (none, []) :=
  no_dispatch_when_auto_upload_off fs0 stOff none gImg (by decide)

/-- Claim C3 counterexample: a 200 response whose body contains the key
`url` with an empty (falsy) value and a truthy `share_url`. The claim
prescribes the value of the first PRESENT key (`url`, i.e. the empty
string), but the code's or-chain skips falsy values and returns the
`share_url` value instead. -/
theorem upload_first_present_counterexample :
    upload_path envEmptyUrl = UploadResult.ok (some "https://b") dataEmptyUrl
    ∧ specFirstPresentLink dataEmptyUrl = some ""
    ∧ (some "https://b" : Option String) ≠ some "" := by
  refine ⟨by decide, by decide, by decide⟩

/-- Claim C3 (amended): on HTTP 200/201 with a parsed body, the upload
returns the success triple whose link is the Python or-chain over the
keys `url`, `share_url`, `file_url`, i.e. (at the outcome level) the
first TRUTHY (present, non-null, non-empty) value among those keys in
that order; when none of the three keys is present the outcome is still
a success with no link; on every other status code the upload returns a
failure carrying the response body text verbatim. -/
theorem upload_status_link_extraction (env : UploadEnv) (r : HttpResponse)
    (hopen : env.openOk = true) (hsend : env.send = SendResult.resp r) :
    (∀ data, (r.status_code = 200 ∨ r.status_code = 201) → r.jsonBody = some data →
        upload_path env = UploadResult.ok (extractUrl data) data
        ∧ outcomeOf (upload_path env) = UploadOutcome.success (firstTruthyLink data)
        ∧ (pyGet data "url" = none → pyGet data "share_url" = none →
            pyGet data "file_url" = none →
            outcomeOf (upload_path env) = UploadOutcome.success none))
    ∧ (¬(r.status_code = 200 ∨ r.status_code = 201) →
        upload_path env = UploadResult.fail r.text) := by
  constructor
  · intro data hst hjson
    have hup : upload_path env = UploadResult.ok (extractUrl data) data := by
      unfold upload_path upload_body
      rw [hsend]
      simp [hopen, hjson, if_pos hst]
    refine ⟨hup, ?_, ?_⟩
    · rw [hup]
      simp only [outcomeOf]
      rw [normLink_extractUrl]
    · intro h1 h2 h3
      rw [hup]
      simp only [outcomeOf]
      rw [normLink_extractUrl]
      simp [firstTruthyLink, List.find?, h1, h2, h3, pyTruthy]
  · intro hst
    unfold upload_path upload_body
    rw [hsend]
    simp [hopen, if_neg hst]

/-- Claim C3 witness: a 200 response with body key `url` holding
`https://s.jesn.zip/x` yields a success carrying exactly that link. -/
theorem upload_status_link_extraction_witness :
    upload_path envPlainUrl = UploadResult.ok (some "https://s.jesn.zip/x") dataPlainUrl
    ∧ outcomeOf (upload_path envPlainUrl)
        = UploadOutcome.success (some "https://s.jesn.zip/x") := by
  have h := (upload_status_link_extraction envPlainUrl
      { status_code := 200, text := "ok", jsonBody := some dataPlainUrl, jsonErrText := "" }
      (by decide) (by decide)).1 dataPlainUrl (Or.inl rfl) rfl
  constructor
  · rw [h.1]
    decide
  · rw [h.2.1]
    decide

/-- Claim C4: the upload operation never lets an exception escape: every
raised exception inside the body becomes a failure triple, the result is
always a terminal ok/fail value, and each failure mode (unopenable file,
transport exception, non-2xx status, unparsable 2xx body) is captured as
a failure. -/
theorem upload_path_never_raises (env : UploadEnv) :
    (∀ e, upload_body env = Except.error e →
        upload_path env = UploadResult.fail e)
    ∧ ((∃ m, upload_path env = UploadResult.fail m)
        ∨ (∃ u d, upload_path env = UploadResult.ok u d))
    ∧ (env.openOk = false → upload_path env = UploadResult.fail env.openErrText)
    ∧ (∀ m, env.openOk = true → env.send = SendResult.raised m →
        upload_path env = UploadResult.fail m)
    ∧ (∀ r, env.openOk = true → env.send = SendResult.resp r →
        ¬(r.status_code = 200 ∨ r.status_code = 201) →
        upload_path env = UploadResult.fail r.text)
    ∧ (∀ r, env.openOk = true → env.send = SendResult.resp r →
        (r.status_code = 200 ∨ r.status_code = 201) → r.jsonBody = none →
        upload_path env = UploadResult.fail r.jsonErrText) := by
  refine ⟨?_, ?_, ?_, ?_, ?_, ?_⟩
  · intro e he
    unfold upload_path
    rw [he]
  · cases hb : upload_body env with
    | ok r =>
      cases r with
      | ok u d =>
        exact Or.inr ⟨u, d, by unfold upload_path; rw [hb]⟩
      | fail m =>
        exact Or.inl ⟨m, by unfold upload_path; rw [hb]⟩
    | error e =>
      exact Or.inl ⟨e, by unfold upload_path; rw [hb]⟩
  · intro h
    unfold upload_path upload_body
    simp [h]
  · intro m ho hs
    unfold upload_path upload_body
    rw [hs]
    simp [ho]
  · intro r ho hs hst
    unfold upload_path upload_body
    rw [hs]
    simp [ho, if_neg hst]
  · intro r ho hs hst hj
    unfold upload_path upload_body
    rw [hs]
    simp [ho, hj, if_pos hst]

/-- Claim C4 witness: an upload whose local file cannot be opened
returns the failure triple carrying the exception text. -/
theorem upload_path_never_raises_witness :
    upload_path envOpenFail = UploadResult.fail "cannot read source" :=
  (upload_path_never_raises envOpenFail).2.2.1 rfl

/-- Claim C5: the outcome sink writes the clipboard exactly when the
outcome is a success with a present link, and then writes exactly that
link; a success without link and every failure leave the clipboard
untouched and emit only a notification (the failure notification carries
the diagnostic message). -/
theorem outcome_sink_clipboard_iff_link (env : UploadEnv) :
    (∀ l, outcomeOf (upload_path env) = UploadOutcome.success (some l) →
        handle_new_file env
          = [Effect.clip l,
             Effect.notif "JesnZIP" "Upload completed — link copied to clipboard"])
    ∧ (outcomeOf (upload_path env) = UploadOutcome.success none →
        handle_new_file env
          = [Effect.notif "JesnZIP" "Upload completed (no link returned)"])
    ∧ (∀ m, outcomeOf (upload_path env) = UploadOutcome.failure m →
        handle_new_file env = [Effect.notif "JesnZIP: Upload failed" m])
    ∧ (∀ s, Effect.clip s ∈ handle_new_file env →
        outcomeOf (upload_path env) = UploadOutcome.success (some s)) := by
  cases hup : upload_path env with
  | ok u d =>
    cases u with
    | none =>
      refine ⟨?_, ?_, ?_, ?_⟩ <;>
        simp [handle_new_file, hup, outcomeOf, normLink, pyTruthy]
    | some s =>
      by_cases hs : s = ""
      · subst hs
        refine ⟨?_, ?_, ?_, ?_⟩ <;>
          simp [handle_new_file, hup, outcomeOf, normLink, pyTruthy]
      · refine ⟨?_, ?_, ?_, ?_⟩ <;>
          simp [handle_new_file, hup, outcomeOf, normLink, pyTruthy, hs]
  | fail m =>
    refine ⟨?_, ?_, ?_, ?_⟩ <;>
      simp [handle_new_file, hup, outcomeOf]

/-- Claim C5 witness: an upload answered with HTTP 500 and body
`server error` reaches the sink as that failure; only the failure
notification is emitted and the clipboard is never written. -/
theorem outcome_sink_clipboard_iff_link_witness :
    handle_new_file env500 = [Effect.notif "JesnZIP: Upload failed" "server error"]
    ∧ ∀ s, Effect.clip s ∉ handle_new_file env500 := by
  have h := (outcome_sink_clipboard_iff_link env500).2.2.1 "server error" (by decide)
  refine ⟨h, ?_⟩
  intro s hs
  rw [h] at hs
  simp at hs

/-- Claim C7 counterexample: the poll interval is captured before the
loop starts. On a run where the settings change the interval from 1 to 5
between the first and second tick, the second tick still sleeps 1
second, not the 5 seconds the current settings prescribe. -/
theorem poll_interval_not_reread :
    (monitor_clipboard_loop fs0 stOn
        [(stOn, Grabbed.clipEmpty), (stPoll5, Grabbed.clipEmpty)]).2.2 = [1, 1]
    ∧ pyGetPoll stPoll5 = 5
    ∧ (1 : Rat) ≠ 5 := by
  refine ⟨rfl, rfl, by norm_num⟩

/-- Claim C7 (amended): the tick period is the `poll_interval` value
read from the settings ONCE, when the loop starts (line 201, before the
`while True:`); every subsequent tick sleeps that captured value, so a
change to the poll-interval setting while the loop runs takes effect
only after a restart. (`auto_upload`, by contrast, is re-read on every
tick inside the loop body.) -/
theorem poll_interval_read_once (fs : FS) (s0 : Settings)
    (ticks : List (Settings × Grabbed)) :
    (monitor_clipboard_loop fs s0 ticks).2.2
      = List.replicate ticks.length (pyGetPoll s0) := by
  unfold monitor_clipboard_loop
  exact monitorGo_sleeps fs (pyGetPoll s0) ticks none

/-- Claim C8 (code bug): when the PNG encoding (`img.save`) raises, the
temporary file created with `delete=False` is never unlinked — the
`os.unlink` at line 153 sits after the `with` block rather than in a
`finally`, so the exception skips it and the `except` clause returns
`None` with the file still on disk. (When encoding succeeds — including
when hashing fails and `None` is returned — the file is unlinked.) -/
theorem image_temp_file_leak_on_encode_failure :
    (image_bytes_hash true (some "h")).1 = none
    ∧ TmpEvent.created ∈ (image_bytes_hash true (some "h")).2
    ∧ TmpEvent.unlinked ∉ (image_bytes_hash true (some "h")).2
    ∧ (∀ hashResult : Option String,
        (image_bytes_hash false hashResult).2 = [TmpEvent.created, TmpEvent.unlinked]) := by
  refine ⟨rfl, by decide, by decide, fun hashResult => rfl⟩

/-- Claim C9: on a file-list snapshot, identification selects the first
path that both exists on disk and carries an allow-listed extension
(`List.find?` returns the first list element satisfying the predicate);
its identity is the string `file::` + absolute path + `::` + size +
`::` + modification time; and when no path qualifies the tick dispatches
nothing. Any spawned path is exactly the selected one. -/
theorem file_list_first_qualifying_identity (fs : FS) (st : Settings)
    (last : Option String) (ps : List String) :
    (ps.find? (fun p => qualifies fs p) = none →
        tick fs st last (Grabbed.files ps) = (last, []))
    ∧ (∀ p, ps.find? (fun p => qualifies fs p) = some p →
        qualifies fs p = true
        ∧ identifyTick fs (Grabbed.files ps)
            = some ("file::" ++ fs.absPath p ++ "::" ++ toString (fs.getSize p)
                ++ "::" ++ toString (fs.getMTime p))
        ∧ ∀ q, TickEvent.spawn q ∈ (tick fs st last (Grabbed.files ps)).2 → q = p) := by
  constructor
  · intro hn
    apply tick_of_identify_none
    simp [identifyTick, hn]
  · intro p hp
    have hid : identifyTick fs (Grabbed.files ps) = some (mkFileId fs p) := by
      simp [identifyTick, hp]
    refine ⟨List.find?_some hp, hid, ?_⟩
    intro q hq
    rw [tick_of_identify_some fs st last _ _ hid] at hq
    by_cases hc : some (mkFileId fs p) ≠ last ∧ pyGetAuto st = true
    · rw [if_pos hc] at hq
      simp [dispatchTarget, hp] at hq
      exact hq
    · rw [if_neg hc] at hq
      simp at hq

/-- Claim C9 witness: the specification example — a file list holding
`/tmp/notes.txt` and `/tmp/photo.png` on a disk where only the png
exists — selects the png, gives it the formatted identity, and spawns
only it. -/
theorem file_list_first_qualifying_identity_witness :
    identifyTick fsPhoto (Grabbed.files listPhoto) = some "file::/tmp/photo.png::10::0"
    ∧ ∀ q, TickEvent.spawn q ∈ (tick fsPhoto stOn none (Grabbed.files listPhoto)).2 →
        q = "/tmp/photo.png" := by
  have h := (file_list_first_qualifying_identity fsPhoto stOn none listPhoto).2
    "/tmp/photo.png" (by decide)
  refine ⟨?_, h.2.2⟩
  rw [h.2.1]
  decide

/-- Claim C10: the file-list scan stops at the first existing
allow-listed path. If that path is blocked — its identity equals the
last dispatched identity, or auto-upload is off — the tick emits nothing
and changes nothing, even when a later path in the same list also
qualifies and carries a fresh identity. -/
theorem file_scan_stops_at_first_match (fs : FS) (st : Settings)
    (last : Option String) (ps : List String) (p q : String)
    (hfind : ps.find? (fun x => qualifies fs x) = some p)
    (hblock : last = some (mkFileId fs p) ∨ pyGetAuto st = false)
    (hq : q ∈ ps) (hqual : qualifies fs q = true)
    (hnew : some (mkFileId fs q) ≠ last) :
    tick fs st last (Grabbed.files ps) = (last, []) := by
  have hid : identifyTick fs (Grabbed.files ps) = some (mkFileId fs p) := by
    simp [identifyTick, hfind]
  rw [tick_of_identify_some fs st last _ _ hid]
  rcases hblock with hb | hb
  · exact if_neg (fun hc => hc.1 hb.symm)
  · refine if_neg (fun hc => ?_)
    rw [hb] at hc
    exact Bool.false_ne_true hc.2

/-- Claim C10 witness: with `/a.png` and `/b.png` both existing and
allow-listed and the last dispatched identity equal to that of `/a.png`,
the tick emits nothing although `/b.png` has a fresh identity. -/
theorem file_scan_stops_at_first_match_witness :
    tick fsTwoPng stOn (some (mkFileId fsTwoPng "/a.png"))
        (Grabbed.files ["/a.png", "/b.png"])
      = (some (mkFileId fsTwoPng "/a.png"), []) :=
  file_scan_stops_at_first_match fsTwoPng stOn
    (some (mkFileId fsTwoPng "/a.png")) ["/a.png", "/b.png"] "/a.png" "/b.png"
    (by decide) (Or.inl rfl) (by decide) (by decide) (by decide)
